import Mathlib

/-!
Shallow embedding of the three UI controllers of the repository
(`src/scripts/trajectoryViewer.ts`, `src/scripts/datasetViewer.js`, and the
citation-copy module), together with theorems settling the spec claims.

Modelling conventions:
* JS numbers are modelled as `ℚ` with the special values `NaN`/`±Infinity`
  made explicit (`JsNum`); integer-valued quantities (array indices, step
  counts) are `Nat`/`Int`.
* The DOM elements the controllers write to are modelled as record fields
  holding the last written value; all DOM anchors are assumed present (the
  configuration in which the controllers are active).
* A JS `Record<string, T>` is an insertion-ordered association list;
  assignment replaces in place or appends (`recordSet`).
* `fetch` + `response.json()` is modelled by an environment
  `String → FetchResult` mapping a URL to its outcome; the list of URLs a
  function fetches is returned alongside the new state.
-/

namespace TrajectoryViewer

/-- JS floating-point results restricted to what the viewer computes:
exact rationals plus NaN and the infinities. -/
inductive JsNum where
  | nan
  | posInf
  | negInf
  | val (q : ℚ)
deriving DecidableEq, Repr

/-- JS division `a / b`: division by zero yields NaN (0/0) or ±Infinity. -/
def jsDiv (a b : ℚ) : JsNum :=
  if b = 0 then
    if a = 0 then JsNum.nan else if 0 < a then JsNum.posInf else JsNum.negInf
  else JsNum.val (a / b)

/-- Multiplication of a JS number by the constant 100 (`x * 100`). -/
def jsMul100 : JsNum → JsNum
  | JsNum.nan => JsNum.nan
  | JsNum.posInf => JsNum.posInf
  | JsNum.negInf => JsNum.negInf
  | JsNum.val q => JsNum.val (q * 100)

/-- `interface State` of trajectoryViewer.ts. -/
structure State where
  image : String
  description : String
deriving DecidableEq, Repr

/-- `interface Step` of trajectoryViewer.ts. -/
structure Step where
  state : State
  reasoning : String
  action : String
deriving DecidableEq, Repr

/-- `interface Trajectory` of trajectoryViewer.ts.  The `totalSteps`
metadata field is part of the data format; whether the code ever reads it
is the subject of claim C10. -/
structure Trajectory where
  name : String
  description : String
  totalSteps : Nat
  success : Bool
  reasoningScore : String
  completionTime : String
  steps : List Step
deriving DecidableEq, Repr

/-- `interface TaskData`: `trajectories` is a `Record<string, Trajectory>`,
modelled as an insertion-ordered association list. -/
structure TaskData where
  taskName : String
  taskDescription : String
  trajectories : List (String × Trajectory)
deriving DecidableEq, Repr

/-- `interface Task` (one task-index entry). -/
structure Task where
  id : String
  name : String
  description : String
  dataFile : String
  thumbnail : String
deriving DecidableEq, Repr

/-- One `.timeline-step` DOM element: its `style.left` and `className`. -/
structure Marker where
  left : JsNum
  className : String
deriving DecidableEq, Repr

/-- Contents of the `timeline-steps` container: either a plain HTML message
(loading indicator / error message) or the progress bar plus the step
markers. -/
inductive TimelineContent where
  | message (html : String)
  | timeline (progressWidth : JsNum) (markers : List Marker)
deriving DecidableEq, Repr

/-- The mutable state of `initTrajectoryViewer`: the closure variables
(`availableTasks`, `taskData`, `currentTaskId`, `currentTrajectoryId`,
`currentStepIndex`, `isPlaying`; `playInterval` is subsumed by `isPlaying`,
with which it is toggled in lockstep) together with the last value written
to each DOM element the controller touches. -/
structure ViewerState where
  availableTasks : List Task
  taskData : List (String × TaskData)
  currentTaskId : String
  currentTrajectoryId : String
  currentStepIndex : Nat
  isPlaying : Bool
  timeline : TimelineContent
  currentStepText : String
  totalStepsText : String
  totalStepsValueText : String
  successText : String
  successClass : String
  reasoningScoreText : String
  completionTimeText : String
  stateImage : String
  stateText : String
  reasoningHtml : String
  actionText : String
  prevDisabled : Bool
  nextDisabled : Bool
deriving DecidableEq, Repr

/-- JS object assignment `obj[k] = v`: replace in place if the key exists,
otherwise append. -/
def recordSet {α : Type} (m : List (String × α)) (k : String) (v : α) :
    List (String × α) :=
  if (m.lookup k).isSome then
    m.map (fun p => if p.1 = k then (k, v) else p)
  else m ++ [(k, v)]

/-- `showErrorMessage`: writes an error `<div>` into the timeline container. -/
def errorMessageHtml (msg : String) : String :=
  "<div class=\"error-message\">" ++ msg ++ "</div>"

def showErrorMessage (s : ViewerState) (msg : String) : ViewerState :=
  { s with timeline := TimelineContent.message (errorMessageHtml msg) }

/-- `showLoading`: writes the loading indicator into the timeline container. -/
def loadingHtml : String :=
  "<div class=\"loading-indicator\"><div class=\"spinner\"></div><p>Loading trajectory data...</p></div>"

def showLoading (s : ViewerState) : ViewerState :=
  { s with timeline := TimelineContent.message loadingHtml }

/-- `style.left` of marker `i` in `initializeTimeline`:
`(i / (totalSteps - 1)) * 100` under JS arithmetic (`totalSteps - 1` is
exact integer arithmetic in JS, hence computed in `Int` before the cast). -/
def markerLeft (totalSteps i : Nat) : JsNum :=
  jsMul100 (jsDiv (i : ℚ) (((totalSteps : Int) - 1 : Int) : ℚ))

def defaultStep : Step :=
  { state := { image := "", description := "" }, reasoning := "", action := "" }

/-- The body of `navigateToStep` after all guards have passed
(`0 ≤ i < trajectory.steps.length`): update `currentStepIndex`, the step
counter, the marker classes and progress bar (only present when the
container currently holds the timeline), the state/reasoning/action display
and the prev/next button states. -/
def renderStep (trajectory : Trajectory) (i : Nat) (s : ViewerState) :
    ViewerState :=
  let totalSteps := trajectory.steps.length
  let step := trajectory.steps.getD i defaultStep
  { s with
    currentStepIndex := i
    currentStepText := toString (i + 1)
    timeline :=
      match s.timeline with
      | TimelineContent.message m => TimelineContent.message m
      | TimelineContent.timeline _ markers =>
          TimelineContent.timeline
            (jsMul100 (jsDiv (i : ℚ) (((totalSteps : Int) - 1 : Int) : ℚ)))
            (markers.mapIdx (fun idx m =>
              { m with className :=
                  if idx < i then "timeline-step completed"
                  else if idx = i then "timeline-step active"
                  else "timeline-step" }))
    stateImage := if step.state.image = "" then "/placeholder-state.png" else step.state.image
    stateText := step.state.description
    reasoningHtml := "<p>" ++ step.reasoning ++ "</p>"
    actionText := step.action
    prevDisabled := decide (i = 0)
    nextDisabled := decide (i = totalSteps - 1) }

/-- `navigateToStep(stepIndex)`: falsy-id guards, task/trajectory lookups,
then the out-of-range check `stepIndex < 0 || stepIndex >= totalSteps`
(silent return), then `renderStep`. -/
def navigateToStep (s : ViewerState) (stepIndex : Int) : ViewerState :=
  if s.currentTaskId = "" then s
  else if s.currentTrajectoryId = "" then s
  else
    match s.taskData.lookup s.currentTaskId with
    | none => s
    | some currentTask =>
      match currentTask.trajectories.lookup s.currentTrajectoryId with
      | none => s
      | some trajectory =>
        if stepIndex < 0 ∨ (trajectory.steps.length : Int) ≤ stepIndex then s
        else renderStep trajectory stepIndex.toNat s

/-- The DOM/metrics reset performed by `initializeTimeline` before it jumps
to step 0: rebuild the timeline container (progress bar at width 0 plus one
`timeline-step` marker per step at `(i / (totalSteps - 1)) * 100`%), reset
the step counter, and fill the metrics panel from the trajectory. -/
def resetTimeline (trajectory : Trajectory) (s : ViewerState) : ViewerState :=
  let totalSteps := trajectory.steps.length
  { s with
    timeline := TimelineContent.timeline (JsNum.val 0)
      ((List.range totalSteps).map (fun i =>
        { left := markerLeft totalSteps i, className := "timeline-step" }))
    currentStepText := "1"
    totalStepsText := toString totalSteps
    totalStepsValueText := toString totalSteps
    successText := if trajectory.success then "Yes" else "No"
    successClass :=
      if trajectory.success then "metric-value success" else "metric-value failure"
    reasoningScoreText :=
      if trajectory.reasoningScore = "" then "N/A" else trajectory.reasoningScore
    completionTimeText :=
      if trajectory.completionTime = "" then "N/A" else trajectory.completionTime }

/-- `initializeTimeline()`: guards, then `resetTimeline` followed by
`navigateToStep(0)`. -/
def initializeTimeline (s : ViewerState) : ViewerState :=
  if s.currentTaskId = "" then s
  else if s.currentTrajectoryId = "" then s
  else
    match s.taskData.lookup s.currentTaskId with
    | none => s
    | some currentTask =>
      match currentTask.trajectories.lookup s.currentTrajectoryId with
      | none => s
      | some trajectory =>
        navigateToStep (resetTimeline trajectory s) 0

/-- One tick of the `setInterval` callback created by `playTrajectory`
(period 2000 ms).  The callback closes over the `trajectory` that was
current when playback started; it advances one step, or — when the last
step has been reached — clears the interval and leaves `playing`. -/
def playTick (trajectory : Trajectory) (s : ViewerState) : ViewerState :=
  if (s.currentStepIndex : Int) < (trajectory.steps.length : Int) - 1 then
    navigateToStep s ((s.currentStepIndex : Int) + 1)
  else
    { s with isPlaying := false }

/-- `playTrajectory()`: the play/pause toggle (the interval handle itself is
subsumed by `isPlaying`, which the source toggles in lockstep with it). -/
def playTrajectory (s : ViewerState) : ViewerState :=
  if s.currentTaskId = "" then s
  else if s.currentTrajectoryId = "" then s
  else
    match s.taskData.lookup s.currentTaskId with
    | none => s
    | some currentTask =>
      match currentTask.trajectories.lookup s.currentTrajectoryId with
      | none => s
      | some _trajectory =>
        if s.isPlaying then { s with isPlaying := false }
        else { s with isPlaying := true }

/-- Outcome of fetching and parsing one URL: non-2xx/network failure,
`response.json()` failure, or parsed data. -/
inductive FetchResult where
  | httpError
  | parseError
  | ok (data : TaskData)
deriving DecidableEq, Repr

/-- `loadTaskData(taskId)`: show the loading indicator, look the task up in
`availableTasks` (throwing — caught below — when absent), fetch its
`dataFile`, store the parsed result in `taskData[taskId]`, set
`currentTaskId`, select the first trajectory and initialize its timeline;
any thrown error ends in `showErrorMessage`.  Returns the new state
together with the list of URLs fetched by this call. -/
def loadTaskData (env : String → FetchResult) (s : ViewerState)
    (taskId : String) : ViewerState × List String :=
  let s0 := showLoading s
  let errMsg := "Failed to load data for " ++ taskId ++ ". Please try again later."
  match s.availableTasks.find? (fun task => task.id == taskId) with
  | none => (showErrorMessage s0 errMsg, [])
  | some taskInfo =>
    match env taskInfo.dataFile with
    | FetchResult.httpError => (showErrorMessage s0 errMsg, [taskInfo.dataFile])
    | FetchResult.parseError => (showErrorMessage s0 errMsg, [taskInfo.dataFile])
    | FetchResult.ok data =>
      let s1 := { s0 with
        taskData := recordSet s0.taskData taskId data
        currentTaskId := taskId }
      match data.trajectories with
      | [] => (s1, [taskInfo.dataFile])
      | (tid, _) :: _ =>
        (initializeTimeline { s1 with currentTrajectoryId := tid },
         [taskInfo.dataFile])

/-- The state's current task/trajectory ids are non-empty and resolve (via
the two association-list lookups the source performs) to `traj`. -/
def resolvesTo (s : ViewerState) (traj : Trajectory) : Prop :=
  s.currentTaskId ≠ "" ∧ s.currentTrajectoryId ≠ "" ∧
  ∃ td, s.taskData.lookup s.currentTaskId = some td ∧
    td.trajectories.lookup s.currentTrajectoryId = some traj

/-- The markers currently in the timeline container ([] when the container
holds a message instead). -/
def markersOf (s : ViewerState) : List Marker :=
  match s.timeline with
  | TimelineContent.message _ => []
  | TimelineContent.timeline _ ms => ms

/-- The progress-bar width currently in the timeline container. -/
def progressOf (s : ViewerState) : Option JsNum :=
  match s.timeline with
  | TimelineContent.message _ => none
  | TimelineContent.timeline w _ => some w

/-- Overwrite a trajectory's `totalSteps` metadata field (used to show the
field is never read). -/
def overwriteTraj (n : Nat) (t : Trajectory) : Trajectory :=
  { t with totalSteps := n }

/-- Overwrite `totalSteps` in every trajectory of a task-data document. -/
def overwriteTd (n : Nat) (td : TaskData) : TaskData :=
  { td with trajectories := td.trajectories.map (fun q => (q.1, overwriteTraj n q.2)) }

/-- Overwrite the `totalSteps` metadata field of every trajectory stored in
the state's task cache. -/
def overwriteTotalSteps (n : Nat) (s : ViewerState) : ViewerState :=
  { s with taskData := s.taskData.map (fun p => (p.1, overwriteTd n p.2)) }

/-- Decidable test: does `loadTaskData env s taskId` fail (task missing,
HTTP failure, or parse failure)? -/
def loadFails (env : String → FetchResult) (s : ViewerState)
    (taskId : String) : Bool :=
  match s.availableTasks.find? (fun task => task.id == taskId) with
  | none => true
  | some taskInfo =>
    match env taskInfo.dataFile with
    | FetchResult.httpError => true
    | FetchResult.parseError => true
    | FetchResult.ok _ => false

end TrajectoryViewer

namespace DatasetViewer

/-- One JSONL record of the dataset: `{ layout_type, images }`.  A missing
or empty `layout_type` is modelled as `""` (both are falsy in JS). -/
structure LayoutSample where
  layout_type : String
  images : List String
deriving DecidableEq, Repr

/-- The mutable fields of `class DatasetViewer`. -/
structure DatasetState where
  allData : List LayoutSample
  filteredData : List LayoutSample
  currentIndex : Nat
  currentLayout : String
  availableLayouts : List String
deriving DecidableEq, Repr

/-- JS `Set` insertion: add at the end unless already present. -/
def setAdd (seen : List String) (x : String) : List String :=
  if x ∈ seen then seen else seen ++ [x]

/-- The contents of the JS `Set` built by iterating `setAdd` (insertion
order, first occurrence wins). -/
def distinct (l : List String) : List String := l.foldl setAdd []

/-- `Array.prototype.sort()` with no comparator on an array of strings:
the lexicographically ascending reordering (insertion sort is extensionally
the sorted permutation; JS compares UTF-16 code units, which for the
code points appearing here agrees with `String.le`). -/
def sortStrings (l : List String) : List String :=
  List.insertionSort (fun a b => a ≤ b) l

/-- `populateFilterOptions()`: collect the truthy `layout_type` values into
a `Set`, sort them ascending into `availableLayouts`, and if no layout is
chosen yet (falsy `currentLayout`) pick the first as default. -/
def populateFilterOptions (st : DatasetState) : DatasetState :=
  let layouts := distinct
    ((st.allData.filter (fun item => item.layout_type != "")).map
      (fun item => item.layout_type))
  let available := sortStrings layouts
  let current :=
    if 0 < available.length ∧ st.currentLayout = "" then available.getD 0 ""
    else st.currentLayout
  { st with availableLayouts := available, currentLayout := current }

/-- `filterData()`: select the samples matching `currentLayout` (empty when
no layout is chosen) and reset the index. -/
def filterData (st : DatasetState) : DatasetState :=
  if st.currentLayout = "" then { st with filteredData := [] }
  else
    { st with
      filteredData := st.allData.filter (fun item => item.layout_type == st.currentLayout)
      currentIndex := 0 }

/-- The two sequential wrap-around `if`s of `navigateLayout`:
`if (newIndex < 0) newIndex = length - 1; if (newIndex >= length) newIndex = 0`. -/
def wrapIndex (len : Nat) (idx : Int) : Int :=
  let idx1 := if idx < 0 then (len : Int) - 1 else idx
  if (len : Int) ≤ idx1 then 0 else idx1

/-- `navigateLayout(direction)`: `indexOf` the current layout (no-op when
absent, JS `-1` modelled by `none`), add the direction, wrap at both ends,
select the layout at the new index and re-filter. -/
def navigateLayout (st : DatasetState) (direction : Int) : DatasetState :=
  match st.availableLayouts.indexOf? st.currentLayout with
  | none => st
  | some currentIndex =>
    let newIndex : Int :=
      wrapIndex st.availableLayouts.length ((currentIndex : Int) + direction)
    filterData { st with
      currentLayout := st.availableLayouts.getD newIndex.toNat "" }

/-- The grid-arity computation of `getSampleHTML`: default 4-column, 1–2
images → 2-column, exactly 3 → 3-column. -/
def gridClass (numImages : Nat) : String :=
  if numImages ≤ 2 then "images-grid-2col"
  else if numImages = 3 then "images-grid-3col"
  else "images-grid-4col"

/-- The grid class `getSampleHTML` renders for a sample:
`gridClass` of `data.images.length`. -/
def getSampleGridClass (data : LayoutSample) : String :=
  gridClass data.images.length

/-- The worked example of the spec: two JSONL lines, layouts `4room` and
`3room`. -/
def exInput : List LayoutSample :=
  [{ layout_type := "4room", images := ["a.png", "b.png"] },
   { layout_type := "3room", images := ["c.png"] }]

/-- Freshly constructed viewer over `exInput`, before
`populateFilterOptions` has run. -/
def dsFresh : DatasetState :=
  { allData := exInput, filteredData := [], currentIndex := 0
    currentLayout := "", availableLayouts := [] }

/-- Viewer over `exInput` with its filter options populated and `layout`
selected. -/
def dsAt (layout : String) : DatasetState :=
  { allData := exInput, filteredData := [], currentIndex := 0
    currentLayout := layout, availableLayouts := ["3room", "4room"] }

/-- A well-formed JSONL input whose only record carries the empty string
as its `layout_type`. -/
def dsEmptyLayout : DatasetState :=
  { allData := [{ layout_type := "", images := ["x.png"] }]
    filteredData := [], currentIndex := 0, currentLayout := ""
    availableLayouts := [] }

end DatasetViewer

namespace CitationCopy

/-- One click of the copy button: its time (ms) and whether the clipboard
write succeeded.  The `await` of `navigator.clipboard.writeText` resolves
within the same millisecond in this model, so the class is added at the
click time. -/
structure Click where
  time : Nat
  ok : Bool
deriving DecidableEq, Repr

/-- The transient classes on the copy button. -/
structure ButtonState where
  copied : Bool
  copyError : Bool
deriving DecidableEq, Repr

/-- A scheduled DOM mutation: `classList.add` at the click time, or the
`classList.remove` that the click's `setTimeout(..., 2000)` schedules. -/
inductive Ev where
  | add (ok : Bool)
  | remove (ok : Bool)
deriving DecidableEq, Repr

/-- The event queue generated by a list of clicks: each click contributes
an add at its time and a removal 2000 ms later (the handler never cancels
a previously scheduled removal). -/
def events (clicks : List Click) : List (Nat × Ev) :=
  clicks.foldr (fun c acc =>
    (c.time, Ev.add c.ok) :: (c.time + 2000, Ev.remove c.ok) :: acc) []

/-- Stable insertion by time (the browser runs due callbacks in
chronological order; same-time entries keep their scheduling order). -/
def insertEv (a : Nat × Ev) : List (Nat × Ev) → List (Nat × Ev)
  | [] => [a]
  | b :: l => if a.1 ≤ b.1 then a :: b :: l else b :: insertEv a l

def sortEvents : List (Nat × Ev) → List (Nat × Ev)
  | [] => []
  | a :: l => insertEv a (sortEvents l)

/-- Apply one event to the button's class list. -/
def applyEv (st : ButtonState) : Nat × Ev → ButtonState
  | (_, Ev.add true) => { st with copied := true }
  | (_, Ev.add false) => { st with copyError := true }
  | (_, Ev.remove true) => { st with copied := false }
  | (_, Ev.remove false) => { st with copyError := false }

/-- The button's class state at time `u`: run every event due by `u` in
chronological order starting from no classes. -/
def buttonAt (clicks : List Click) (u : Nat) : ButtonState :=
  (sortEvents ((events clicks).filter (fun e => e.1 ≤ u))).foldl applyEv
    { copied := false, copyError := false }

end CitationCopy

namespace TrajectoryViewer

/-- Concrete step used by the example data below. -/
def stepA : Step :=
  { state := { image := "s.png", description := "a room" }
    reasoning := "think", action := "move" }

/-- Example trajectory with three steps. -/
def traj3 : Trajectory :=
  { name := "run 1", description := "", totalSteps := 3, success := true
    reasoningScore := "high", completionTime := "4s"
    steps := [stepA, stepA, stepA] }

/-- Example trajectory with a single step. -/
def traj1 : Trajectory :=
  { name := "run 2", description := "", totalSteps := 1, success := false
    reasoningScore := "", completionTime := ""
    steps := [stepA] }

/-- Example parsed task-data document. -/
def td1 : TaskData :=
  { taskName := "Task One", taskDescription := ""
    trajectories := [("r3", traj3), ("r1", traj1)] }

/-- Example task-index entry. -/
def task1 : Task :=
  { id := "t1", name := "Task One", description := ""
    dataFile := "d1.json", thumbnail := "" }

/-- A viewer state as it stands right after the task index has loaded:
one known task, nothing fetched yet. -/
def stBase : ViewerState :=
  { availableTasks := [task1], taskData := [], currentTaskId := ""
    currentTrajectoryId := "", currentStepIndex := 0, isPlaying := false
    timeline := TimelineContent.message "", currentStepText := ""
    totalStepsText := "", totalStepsValueText := "", successText := ""
    successClass := "", reasoningScoreText := "", completionTimeText := ""
    stateImage := "", stateText := "", reasoningHtml := "", actionText := ""
    prevDisabled := false, nextDisabled := false }

/-- Environment in which `d1.json` parses to `td1` and any other URL
fails. -/
def envA : String → FetchResult := fun url =>
  if url = "d1.json" then FetchResult.ok td1 else FetchResult.httpError

/-- Environment in which every fetch fails with a non-2xx status. -/
def envBad : String → FetchResult := fun _ => FetchResult.httpError

/-- A state whose current trajectory is the three-step `traj3`, paused at
step 0 with the timeline initialized, about to start playback. -/
def st3 : ViewerState :=
  { stBase with
    taskData := [("t1", td1)], currentTaskId := "t1"
    currentTrajectoryId := "r3", currentStepIndex := 0, isPlaying := true
    timeline := TimelineContent.timeline (JsNum.val 0)
      [{ left := JsNum.val 0, className := "timeline-step active" },
       { left := markerLeft 3 1, className := "timeline-step" },
       { left := markerLeft 3 2, className := "timeline-step" }] }

/-- Like `st3` but with the single-step trajectory `r1` selected. -/
def stOne : ViewerState :=
  { stBase with
    taskData := [("t1", td1)], currentTaskId := "t1"
    currentTrajectoryId := "r1", currentStepIndex := 0, isPlaying := false }

end TrajectoryViewer

namespace TrajectoryViewer

theorem navigateToStep_resolved (s : ViewerState) (traj : Trajectory) (i : Int)
    (h : resolvesTo s traj) :
    navigateToStep s i =
      if i < 0 ∨ (traj.steps.length : Int) ≤ i then s
      else renderStep traj i.toNat s := by
  obtain ⟨h1, h2, td, h3, h4⟩ := h
  simp only [navigateToStep, if_neg h1, if_neg h2, h3, h4]

theorem resolvesTo_of_fields {s s' : ViewerState} {traj : Trajectory}
    (h : resolvesTo s traj) (h1 : s'.currentTaskId = s.currentTaskId)
    (h2 : s'.currentTrajectoryId = s.currentTrajectoryId)
    (h3 : s'.taskData = s.taskData) : resolvesTo s' traj := by
  obtain ⟨a, b, td, c, d⟩ := h
  exact ⟨by rw [h1]; exact a, by rw [h2]; exact b, td,
    by rw [h1, h3]; exact c, by rw [h2]; exact d⟩

theorem resolvesTo_renderStep {s : ViewerState} {traj : Trajectory}
    (h : resolvesTo s traj) (traj' : Trajectory) (j : Nat) :
    resolvesTo (renderStep traj' j s) traj :=
  resolvesTo_of_fields h rfl rfl rfl

theorem resolvesTo_navigateToStep {s : ViewerState} {traj : Trajectory}
    (h : resolvesTo s traj) (i : Int) :
    resolvesTo (navigateToStep s i) traj := by
  rw [navigateToStep_resolved s traj i h]
  split
  · exact h
  · exact resolvesTo_renderStep h traj _

theorem mapIdx_className_idem (c : Nat → String) (l : List Marker) :
    List.mapIdx (fun idx m => { m with className := c idx })
        (List.mapIdx (fun idx m => { m with className := c idx }) l) =
      List.mapIdx (fun idx m => { m with className := c idx }) l := by
  induction l generalizing c with
  | nil => rfl
  | cons a l ih =>
    simp only [List.mapIdx_cons]
    exact congrArg₂ List.cons rfl (ih (fun i => c (i + 1)))

theorem renderStep_idem (traj : Trajectory) (j : Nat) (s : ViewerState) :
    renderStep traj j (renderStep traj j s) = renderStep traj j s := by
  obtain ⟨a1, a2, a3, a4, a5, a6, tl, a8, a9, a10, a11, a12, a13, a14, a15,
    a16, a17, a18, a19, a20⟩ := s
  cases tl with
  | message m => rfl
  | timeline pw ms => simp only [renderStep, mapIdx_className_idem]

theorem initializeTimeline_resolved (s : ViewerState) (traj : Trajectory)
    (h : resolvesTo s traj) :
    initializeTimeline s = navigateToStep (resetTimeline traj s) 0 := by
  obtain ⟨h1, h2, td, h3, h4⟩ := h
  simp only [initializeTimeline, if_neg h1, if_neg h2, h3, h4]

theorem resolvesTo_resetTimeline {s : ViewerState} {traj : Trajectory}
    (h : resolvesTo s traj) (traj' : Trajectory) :
    resolvesTo (resetTimeline traj' s) traj :=
  resolvesTo_of_fields h rfl rfl rfl

theorem playTick_invariant (traj : Trajectory) (s : ViewerState)
    (h : resolvesTo s traj) (hidx : s.currentStepIndex < traj.steps.length) :
    resolvesTo (playTick traj s) traj ∧
    (playTick traj s).currentStepIndex < traj.steps.length ∧
    s.currentStepIndex ≤ (playTick traj s).currentStepIndex := by
  by_cases hc : (s.currentStepIndex : Int) < (traj.steps.length : Int) - 1
  · simp only [playTick, if_pos hc]
    rw [navigateToStep_resolved s traj _ h, if_neg (by omega)]
    have hix : (renderStep traj (((s.currentStepIndex : Int) + 1).toNat) s).currentStepIndex
        = ((s.currentStepIndex : Int) + 1).toNat := rfl
    refine ⟨resolvesTo_renderStep h traj _, ?_, ?_⟩
    · rw [hix]; omega
    · rw [hix]; omega
  · simp only [playTick, if_neg hc]
    exact ⟨resolvesTo_of_fields h rfl rfl rfl, hidx, le_refl _⟩

theorem playTick_iterate_invariant (traj : Trajectory) (s : ViewerState)
    (h : resolvesTo s traj) (hidx : s.currentStepIndex < traj.steps.length)
    (k : Nat) :
    resolvesTo ((playTick traj)^[k] s) traj ∧
    ((playTick traj)^[k] s).currentStepIndex < traj.steps.length ∧
    s.currentStepIndex ≤ ((playTick traj)^[k] s).currentStepIndex := by
  induction k with
  | zero => exact ⟨h, hidx, le_refl _⟩
  | succ n ihn =>
    obtain ⟨hr, hlt, hle⟩ := ihn
    have step := playTick_invariant traj _ hr hlt
    rw [Function.iterate_succ_apply']
    exact ⟨step.1, step.2.1, le_trans hle step.2.2⟩

/-- C4: while playing, a 2000 ms timer tick that is not yet at the final
step advances the current step by exactly one and stays playing; a tick at
the final step auto-stops playback (clears the interval, keeps the step)
and leaves the rest of the state untouched; and over any number of ticks
the step index never leaves `[0, totalSteps-1]` and never decreases (in
particular it never wraps back to 0). -/
theorem playTick_advances_and_stops (traj : Trajectory) (s : ViewerState)
    (h : resolvesTo s traj) (hplay : s.isPlaying = true)
    (hidx : s.currentStepIndex < traj.steps.length) :
    (s.currentStepIndex + 1 < traj.steps.length →
        (playTick traj s).currentStepIndex = s.currentStepIndex + 1 ∧
        (playTick traj s).isPlaying = true) ∧
    (s.currentStepIndex + 1 = traj.steps.length →
        playTick traj s = { s with isPlaying := false }) ∧
    (∀ k : Nat, ((playTick traj)^[k] s).currentStepIndex < traj.steps.length ∧
        s.currentStepIndex ≤ ((playTick traj)^[k] s).currentStepIndex) := by
  refine ⟨?_, ?_, ?_⟩
  · intro hlt
    have hc : (s.currentStepIndex : Int) < (traj.steps.length : Int) - 1 := by omega
    simp only [playTick, if_pos hc]
    rw [navigateToStep_resolved s traj _ h, if_neg (by omega)]
    have hix : (renderStep traj (((s.currentStepIndex : Int) + 1).toNat) s).currentStepIndex
        = ((s.currentStepIndex : Int) + 1).toNat := rfl
    have hpl : (renderStep traj (((s.currentStepIndex : Int) + 1).toNat) s).isPlaying
        = s.isPlaying := rfl
    refine ⟨?_, by rw [hpl]; exact hplay⟩
    rw [hix]; omega
  · intro heq
    have hc : ¬ ((s.currentStepIndex : Int) < (traj.steps.length : Int) - 1) := by omega
    simp only [playTick, if_neg hc]
  · intro k
    exact (playTick_iterate_invariant traj s h hidx k).2

/-- Witness for C4: on the three-step example trajectory, playing at step 0
the first tick moves to step 1 and remains playing. -/
theorem playTick_advances_and_stops_witness :
    (playTick traj3 st3).currentStepIndex = 1 ∧
    (playTick traj3 st3).isPlaying = true := by
  have h := playTick_advances_and_stops traj3 st3
    ⟨by decide, by decide, td1, rfl, rfl⟩ rfl (by decide)
  exact h.1 (by decide)

/-- C5: `navigateToStep` is a no-op (the whole controller state, rendered
display included, is unchanged) for a step index outside
`[0, totalSteps-1]`, and navigating again to the step that is already
current changes nothing. -/
theorem navigateToStep_noop_and_idempotent (s : ViewerState)
    (traj : Trajectory) (i : Int) (h : resolvesTo s traj) :
    ((i < 0 ∨ (traj.steps.length : Int) ≤ i) → navigateToStep s i = s) ∧
    navigateToStep (navigateToStep s i) i = navigateToStep s i := by
  have hr := navigateToStep_resolved s traj i h
  constructor
  · intro hout
    rw [hr, if_pos hout]
  · by_cases hout : i < 0 ∨ (traj.steps.length : Int) ≤ i
    · rw [hr, if_pos hout, hr, if_pos hout]
    · rw [navigateToStep_resolved _ traj i (resolvesTo_navigateToStep h i),
        if_neg hout, hr, if_neg hout, renderStep_idem]

/-- Witness for C5: on the three-step example, navigating to index 5 (and
to -1) is the identity, and navigating twice to step 1 equals navigating
once. -/
theorem navigateToStep_noop_and_idempotent_witness :
    navigateToStep st3 5 = st3 ∧ navigateToStep st3 (-1) = st3 ∧
    navigateToStep (navigateToStep st3 1) 1 = navigateToStep st3 1 := by
  have h5 := navigateToStep_noop_and_idempotent st3 traj3 5
    ⟨by decide, by decide, td1, rfl, rfl⟩
  have hm := navigateToStep_noop_and_idempotent st3 traj3 (-1)
    ⟨by decide, by decide, td1, rfl, rfl⟩
  have h1 := navigateToStep_noop_and_idempotent st3 traj3 1
    ⟨by decide, by decide, td1, rfl, rfl⟩
  exact ⟨h5.1 (by decide), hm.1 (by decide), h1.2⟩

theorem mapIdx_map_range {β : Type} (n : Nat) (g : Nat → β) (f : Nat → β → β) :
    List.mapIdx f ((List.range n).map g) = (List.range n).map (fun i => f i (g i)) := by
  induction n with
  | zero => rfl
  | succ m ih =>
    rw [List.range_succ, List.map_append, List.mapIdx_append, List.map_append, ih]
    simp

theorem markersOf_initializeTimeline (s : ViewerState) (traj : Trajectory)
    (h : resolvesTo s traj) :
    markersOf (initializeTimeline s) =
      (List.range traj.steps.length).map (fun i =>
        { left := markerLeft traj.steps.length i
          className := if i = 0 then "timeline-step active" else "timeline-step" }) := by
  rw [initializeTimeline_resolved s traj h,
    navigateToStep_resolved _ traj 0 (resolvesTo_resetTimeline h traj)]
  rcases Nat.eq_zero_or_pos traj.steps.length with hz | hp
  · rw [if_pos (by omega)]
    simp [markersOf, resetTimeline, hz]
  · rw [if_neg (by omega)]
    simp only [markersOf, renderStep, resetTimeline, Int.toNat_zero,
      mapIdx_map_range]
    refine List.map_congr_left ?_
    intro a _
    simp

/-- C2 (amended): `initializeTimeline` creates one marker per step; for
`N ≥ 2` marker `i` is placed at `i / (N-1) * 100` percent of the axis; but
for `N = 1` there is no division-by-zero guard: JS computes `0/0 = NaN`,
so the sole marker's `left` is the (invalid, browser-ignored) value `NaN%`
rather than `0%` — initialization still completes without throwing. -/
theorem initializeTimeline_marker_positions (s : ViewerState)
    (traj : Trajectory) (h : resolvesTo s traj) :
    (markersOf (initializeTimeline s)).length = traj.steps.length ∧
    (∀ i, i < traj.steps.length →
        ((markersOf (initializeTimeline s)).getD i
            { left := JsNum.nan, className := "" }).left =
          markerLeft traj.steps.length i) ∧
    (2 ≤ traj.steps.length → ∀ i, i < traj.steps.length →
        markerLeft traj.steps.length i =
          JsNum.val ((i : ℚ) / ((traj.steps.length : ℚ) - 1) * 100)) ∧
    (traj.steps.length = 1 →
        markerLeft 1 0 = JsNum.nan ∧
        markersOf (initializeTimeline s) =
          [{ left := JsNum.nan, className := "timeline-step active" }]) := by
  have hm := markersOf_initializeTimeline s traj h
  have hnan : markerLeft 1 0 = JsNum.nan := by
    norm_num [markerLeft, jsDiv, jsMul100]
  refine ⟨?_, ?_, ?_, ?_⟩
  · rw [hm]; simp
  · intro i hi
    rw [hm]
    rw [List.getD_eq_getElem _ _ (by simpa using hi), List.getElem_map,
      List.getElem_range]
  · intro hN i hi
    have hne : ((traj.steps.length : ℚ)) ≠ 1 := by
      exact_mod_cast (by omega : traj.steps.length ≠ 1)
    have hden : (((traj.steps.length : Int) - 1 : Int) : ℚ) ≠ 0 := by
      push_cast
      exact sub_ne_zero.mpr hne
    rw [markerLeft, jsDiv, if_neg hden]
    simp only [jsMul100, JsNum.val.injEq]
    push_cast
    ring
  · intro hN
    refine ⟨hnan, ?_⟩
    rw [hm, hN]
    simp [List.range_succ, List.range_zero, hnan]

/-- C2 counterexample: on the concrete single-step trajectory, the sole
marker's computed `left` is `NaN`, not `0%` as the claim states — there is
no division-by-zero guard in `initializeTimeline`. -/
theorem initializeTimeline_single_step_nan_cex :
    markersOf (initializeTimeline stOne) =
      [{ left := JsNum.nan, className := "timeline-step active" }] ∧
    JsNum.nan ≠ JsNum.val 0 := by
  constructor
  · rw [markersOf_initializeTimeline stOne traj1 ⟨by decide, by decide, td1, rfl, rfl⟩]
    norm_num [traj1, stepA, markerLeft, jsDiv, jsMul100, List.range_succ, List.range_zero]
  · decide

/-- Witness for C2 (amended): the single-step example renders its sole
marker with `left = NaN`, and on the three-step example marker 2 sits at
`2 / (3-1) * 100` percent. -/
theorem initializeTimeline_marker_positions_witness :
    markersOf (initializeTimeline stOne) =
      [{ left := JsNum.nan, className := "timeline-step active" }] ∧
    markerLeft 3 2 = JsNum.val ((2 : ℚ) / ((3 : ℚ) - 1) * 100) := by
  have h1 := initializeTimeline_marker_positions stOne traj1
    ⟨by decide, by decide, td1, rfl, rfl⟩
  have h3 := initializeTimeline_marker_positions st3 traj3
    ⟨by decide, by decide, td1, rfl, rfl⟩
  refine ⟨(h1.2.2.2 rfl).2, ?_⟩
  have hval := h3.2.2.1 (by decide) 2 (by decide)
  simpa using hval

theorem lookup_map_value {β γ : Type} (f : β → γ) (l : List (String × β))
    (k : String) :
    (l.map (fun p => (p.1, f p.2))).lookup k = (l.lookup k).map f := by
  induction l with
  | nil => rfl
  | cons a l ih =>
    obtain ⟨ka, va⟩ := a
    simp only [List.map_cons, List.lookup_cons]
    cases h : k == ka <;> simp [ih]

theorem resolvesTo_overwriteTotalSteps {s : ViewerState} {traj : Trajectory}
    (h : resolvesTo s traj) (n : Nat) :
    resolvesTo (overwriteTotalSteps n s) (overwriteTraj n traj) := by
  obtain ⟨h1, h2, td, h3, h4⟩ := h
  refine ⟨h1, h2, overwriteTd n td, ?_, ?_⟩
  · show (s.taskData.map (fun p => (p.1, overwriteTd n p.2))).lookup s.currentTaskId
      = some (overwriteTd n td)
    rw [lookup_map_value, h3]
    rfl
  · show ((overwriteTd n td).trajectories).lookup s.currentTrajectoryId
      = some (overwriteTraj n traj)
    show (td.trajectories.map (fun q => (q.1, overwriteTraj n q.2))).lookup
      s.currentTrajectoryId = some (overwriteTraj n traj)
    rw [lookup_map_value, h4]
    rfl

theorem overwriteTraj_steps (n : Nat) (traj : Trajectory) :
    (overwriteTraj n traj).steps = traj.steps := rfl

theorem renderStep_overwrite_comm (traj : Trajectory) (n j : Nat)
    (s : ViewerState) :
    renderStep (overwriteTraj n traj) j (overwriteTotalSteps n s) =
      overwriteTotalSteps n (renderStep traj j s) := rfl

theorem navigateToStep_overwrite_comm (s : ViewerState) (traj : Trajectory)
    (n : Nat) (i : Int) (h : resolvesTo s traj) :
    navigateToStep (overwriteTotalSteps n s) i =
      overwriteTotalSteps n (navigateToStep s i) := by
  rw [navigateToStep_resolved _ (overwriteTraj n traj) i
      (resolvesTo_overwriteTotalSteps h n),
    navigateToStep_resolved s traj i h, overwriteTraj_steps]
  by_cases hc : i < 0 ∨ (traj.steps.length : Int) ≤ i
  · rw [if_pos hc, if_pos hc]
  · rw [if_neg hc, if_neg hc, renderStep_overwrite_comm]

theorem resetTimeline_overwrite_comm (traj : Trajectory) (n : Nat)
    (s : ViewerState) :
    resetTimeline (overwriteTraj n traj) (overwriteTotalSteps n s) =
      overwriteTotalSteps n (resetTimeline traj s) := rfl

/-- C10: the trajectory's `totalSteps` metadata field is never read —
overwriting it everywhere commutes with `navigateToStep` and
`initializeTimeline` and leaves the play-tick behaviour untouched — and
the step counter, the metrics panel and the number of timeline markers all
come from `steps.length`, while `navigateToStep` treats `steps.length` as
the exclusive upper bound of valid indices. -/
theorem totalSteps_field_never_read (s : ViewerState) (traj : Trajectory)
    (n : Nat) (i : Int) (h : resolvesTo s traj) :
    navigateToStep (overwriteTotalSteps n s) i =
      overwriteTotalSteps n (navigateToStep s i) ∧
    initializeTimeline (overwriteTotalSteps n s) =
      overwriteTotalSteps n (initializeTimeline s) ∧
    playTick (overwriteTraj n traj) s = playTick traj s ∧
    navigateToStep s (traj.steps.length : Int) = s ∧
    (initializeTimeline s).totalStepsText = toString traj.steps.length ∧
    (initializeTimeline s).totalStepsValueText = toString traj.steps.length ∧
    (markersOf (initializeTimeline s)).length = traj.steps.length := by
  refine ⟨navigateToStep_overwrite_comm s traj n i h, ?_, rfl, ?_, ?_, ?_, ?_⟩
  · rw [initializeTimeline_resolved _ (overwriteTraj n traj)
        (resolvesTo_overwriteTotalSteps h n),
      initializeTimeline_resolved s traj h, resetTimeline_overwrite_comm,
      navigateToStep_overwrite_comm _ traj n 0 (resolvesTo_resetTimeline h traj)]
  · rw [navigateToStep_resolved s traj _ h, if_pos (Or.inr (le_refl _))]
  · rw [initializeTimeline_resolved s traj h,
      navigateToStep_resolved _ traj 0 (resolvesTo_resetTimeline h traj)]
    split <;> rfl
  · rw [initializeTimeline_resolved s traj h,
      navigateToStep_resolved _ traj 0 (resolvesTo_resetTimeline h traj)]
    split <;> rfl
  · rw [markersOf_initializeTimeline s traj h]
    simp

/-- Witness for C10: with the three-step example (whose `totalSteps` field
is overwritten to 99), navigation is unaffected and the displayed step
total is the array length 3. -/
theorem totalSteps_field_never_read_witness :
    navigateToStep (overwriteTotalSteps 99 st3) 1 =
      overwriteTotalSteps 99 (navigateToStep st3 1) ∧
    (initializeTimeline st3).totalStepsText = "3" ∧
    navigateToStep st3 3 = st3 := by
  have h := totalSteps_field_never_read st3 traj3 99 1
    ⟨by decide, by decide, td1, rfl, rfl⟩
  exact ⟨h.1, h.2.2.2.2.1, h.2.2.2.1⟩

/-- C1 counterexample: after a successful load of task `t1` (whose parsed
data is stored in the cache), selecting `t1` again still issues a fetch of
its data file — the cache is never consulted before fetching. -/
theorem loadTaskData_refetch_cached_cex :
    ((loadTaskData envA stBase "t1").1.taskData.lookup "t1").isSome = true ∧
    (loadTaskData envA (loadTaskData envA stBase "t1").1 "t1").2 =
      ["d1.json"] := by
  constructor <;> rfl

/-- C1 (amended): `loadTaskData` stores the parsed result keyed by
`taskId`, but it never consults that cache before fetching: whenever the
task id resolves in the index, a selection issues a fetch of the task's
data file even when an entry for that id is already cached. -/
theorem loadTaskData_always_fetches (env : String → FetchResult)
    (s : ViewerState) (taskId : String) (taskInfo : Task)
    (hfind : s.availableTasks.find? (fun task => task.id == taskId) =
      some taskInfo)
    (_hcached : (s.taskData.lookup taskId).isSome = true) :
    (loadTaskData env s taskId).2 = [taskInfo.dataFile] := by
  cases henv : env taskInfo.dataFile with
  | httpError => simp only [loadTaskData, hfind, henv]
  | parseError => simp only [loadTaskData, hfind, henv]
  | ok data =>
    cases htr : data.trajectories with
    | nil => simp only [loadTaskData, hfind, henv, htr]
    | cons hd tl =>
      obtain ⟨tid, tr⟩ := hd
      simp only [loadTaskData, hfind, henv, htr]

/-- Witness for C1 (amended): concretely, re-selecting the already cached
task `t1` fetches `d1.json` again. -/
theorem loadTaskData_always_fetches_witness :
    (loadTaskData envA (loadTaskData envA stBase "t1").1 "t1").2 =
      ["d1.json"] ∧ task1.dataFile = "d1.json" := by
  refine ⟨?_, rfl⟩
  exact loadTaskData_always_fetches envA (loadTaskData envA stBase "t1").1
    "t1" task1 rfl rfl

/-- C8: when loading a task's data fails — the id is missing from the
index, the HTTP request fails, or the response does not parse — the only
state change is the error message shown in the timeline container: the
cache keeps every previously stored entry, no entry is stored for the
failing task, and the current task/trajectory selection is untouched. -/
theorem loadTaskData_failure_preserves_state (env : String → FetchResult)
    (s : ViewerState) (taskId : String)
    (hfail : loadFails env s taskId = true) :
    (loadTaskData env s taskId).1 =
      { s with timeline := TimelineContent.message (errorMessageHtml
          ("Failed to load data for " ++ taskId ++
            ". Please try again later.")) } ∧
    (loadTaskData env s taskId).1.taskData = s.taskData ∧
    ((s.taskData.lookup taskId).isNone →
      ((loadTaskData env s taskId).1.taskData.lookup taskId).isNone) := by
  have hmain : (loadTaskData env s taskId).1 =
      { s with timeline := TimelineContent.message (errorMessageHtml
          ("Failed to load data for " ++ taskId ++
            ". Please try again later.")) } := by
    cases hfind : s.availableTasks.find? (fun task => task.id == taskId) with
    | none =>
      simp only [loadTaskData, hfind]
      rfl
    | some taskInfo =>
      cases henv : env taskInfo.dataFile with
      | httpError =>
        simp only [loadTaskData, hfind, henv]
        rfl
      | parseError =>
        simp only [loadTaskData, hfind, henv]
        rfl
      | ok data =>
        exfalso
        simp only [loadFails, hfind, henv] at hfail
        exact Bool.false_ne_true hfail
  refine ⟨hmain, ?_, ?_⟩
  · rw [hmain]
  · intro hnone
    rw [hmain]
    exact hnone

/-- Witness for C8: with every fetch failing, loading `t1` on a state that
already caches `t1` leaves the cache as it was, and loading the unknown
task `tX` stores nothing for it. -/
theorem loadTaskData_failure_preserves_state_witness :
    (loadTaskData envBad st3 "t1").1.taskData = [("t1", td1)] ∧
    ((loadTaskData envBad stBase "tX").1.taskData.lookup "tX").isNone := by
  have h1 := loadTaskData_failure_preserves_state envBad st3 "t1" rfl
  have h2 := loadTaskData_failure_preserves_state envBad stBase "tX" rfl
  exact ⟨h1.2.1, h2.2.2 rfl⟩

end TrajectoryViewer

namespace DatasetViewer

theorem mem_setAdd (seen : List String) (x y : String) :
    y ∈ setAdd seen x ↔ y ∈ seen ∨ y = x := by
  unfold setAdd
  split
  · next h =>
    constructor
    · exact Or.inl
    · rintro (hy | rfl)
      · exact hy
      · exact h
  · simp

theorem nodup_setAdd (seen : List String) (x : String) (h : seen.Nodup) :
    (setAdd seen x).Nodup := by
  unfold setAdd
  split
  · exact h
  · next hx => simp [List.nodup_append, h, hx]

theorem mem_foldl_setAdd (l : List String) (acc : List String) (x : String) :
    x ∈ l.foldl setAdd acc ↔ x ∈ acc ∨ x ∈ l := by
  induction l generalizing acc with
  | nil => simp
  | cons a l ih =>
    simp only [List.foldl_cons, ih, mem_setAdd, List.mem_cons]
    tauto

theorem nodup_foldl_setAdd (l : List String) (acc : List String)
    (h : acc.Nodup) : (l.foldl setAdd acc).Nodup := by
  induction l generalizing acc with
  | nil => exact h
  | cons a l ih => exact ih _ (nodup_setAdd _ _ h)

theorem mem_distinct (l : List String) (x : String) :
    x ∈ distinct l ↔ x ∈ l := by
  unfold distinct
  rw [mem_foldl_setAdd]
  simp

theorem nodup_distinct (l : List String) : (distinct l).Nodup :=
  nodup_foldl_setAdd l [] List.nodup_nil

theorem mem_sortStrings (l : List String) (x : String) :
    x ∈ sortStrings l ↔ x ∈ l :=
  (List.perm_insertionSort _ l).mem_iff

theorem sorted_sortStrings (l : List String) :
    (sortStrings l).Sorted (fun a b => a ≤ b) :=
  List.sorted_insertionSort _ l

theorem nodup_sortStrings (l : List String) (h : l.Nodup) :
    (sortStrings l).Nodup :=
  (List.perm_insertionSort _ l).nodup_iff.mpr h

/-- C6 (amended): after `populateFilterOptions` the selectable layouts are
exactly the distinct **non-empty** `layout_type` values present in the
input (the truthiness check `if (item.layout_type)` drops an empty
string), sorted lexicographically ascending with no duplicates; when no
layout was chosen yet, the default selection is the first element of that
sorted list. -/
theorem populateFilterOptions_sorted_distinct (st : DatasetState) :
    (populateFilterOptions st).availableLayouts.Sorted (fun a b => a ≤ b) ∧
    (populateFilterOptions st).availableLayouts.Nodup ∧
    (∀ x, x ∈ (populateFilterOptions st).availableLayouts ↔
        (x ≠ "" ∧ ∃ item ∈ st.allData, item.layout_type = x)) ∧
    (st.currentLayout = "" →
      ∀ y ys, (populateFilterOptions st).availableLayouts = y :: ys →
        (populateFilterOptions st).currentLayout = y) := by
  refine ⟨sorted_sortStrings _, nodup_sortStrings _ (nodup_distinct _), ?_, ?_⟩
  · intro x
    show x ∈ sortStrings (distinct
      ((st.allData.filter (fun item => item.layout_type != "")).map
        (fun item => item.layout_type))) ↔ _
    rw [mem_sortStrings, mem_distinct, List.mem_map]
    constructor
    · rintro ⟨item, hitem, rfl⟩
      rw [List.mem_filter] at hitem
      exact ⟨by simpa using hitem.2, item, hitem.1, rfl⟩
    · rintro ⟨hne, item, hmem, rfl⟩
      exact ⟨item, List.mem_filter.mpr ⟨hmem, by simpa using hne⟩, rfl⟩
  · intro h y ys hav
    have hcur : (populateFilterOptions st).currentLayout =
        if 0 < (populateFilterOptions st).availableLayouts.length ∧
            st.currentLayout = ""
        then (populateFilterOptions st).availableLayouts.getD 0 ""
        else st.currentLayout := rfl
    rw [hcur, hav, if_pos ⟨by simp, h⟩]
    rfl

/-- C6 counterexample: the claim fails as stated on a well-formed JSONL
input containing a record with the empty string as `layout_type`: that
value is present in the input, but the truthiness check excludes it from
the selectable layouts. -/
theorem populateFilterOptions_empty_layout_cex :
    (populateFilterOptions dsEmptyLayout).availableLayouts = [] ∧
    dsEmptyLayout.allData.map (fun item => item.layout_type) = [""] ∧
    ([] : List String) ≠ [""] := by
  refine ⟨rfl, rfl, by decide⟩

/-- Witness for C6 (amended): the spec's worked example — lines with
`layout_type` `4room` then `3room` yield selectable layouts
`["3room", "4room"]` with default selection `3room`. -/
theorem populateFilterOptions_sorted_distinct_witness :
    (populateFilterOptions dsFresh).availableLayouts = ["3room", "4room"] ∧
    (populateFilterOptions dsFresh).currentLayout = "3room" := by
  have h := populateFilterOptions_sorted_distinct dsFresh
  have hle : ¬ (("4room" : String) ≤ "3room") :=
    not_le.mpr (String.lt_iff_toList_lt.mpr (by decide))
  have hav : (populateFilterOptions dsFresh).availableLayouts =
      ["3room", "4room"] := by
    show sortStrings ["4room", "3room"] = ["3room", "4room"]
    simp only [sortStrings, List.insertionSort, List.orderedInsert]
    rw [if_neg hle]
  exact ⟨hav, h.2.2.2 rfl "3room" ["4room"] hav⟩

theorem filterData_currentLayout (st : DatasetState) :
    (filterData st).currentLayout = st.currentLayout := by
  unfold filterData
  split <;> rfl

theorem navigateLayout_currentLayout (st : DatasetState) (i : Nat) (d : Int)
    (hidx : st.availableLayouts.indexOf? st.currentLayout = some i) :
    (navigateLayout st d).currentLayout =
      st.availableLayouts.getD
        (wrapIndex st.availableLayouts.length ((i : Int) + d)).toNat "" := by
  simp only [navigateLayout, hidx]
  rw [filterData_currentLayout]

/-- C7: layout navigation wraps at both ends of the non-empty layout list:
`+1` from the last layout selects the first and `-1` from the first
selects the last; otherwise a step of `±1` moves to the adjacent layout in
the sorted list. -/
theorem navigateLayout_wraps (st : DatasetState) (i : Nat)
    (hidx : st.availableLayouts.indexOf? st.currentLayout = some i)
    (hlen : i < st.availableLayouts.length) :
    (i = st.availableLayouts.length - 1 →
        (navigateLayout st 1).currentLayout =
          st.availableLayouts.getD 0 "") ∧
    (i = 0 →
        (navigateLayout st (-1)).currentLayout =
          st.availableLayouts.getD (st.availableLayouts.length - 1) "") ∧
    (∀ d : Int, (d = 1 ∨ d = -1) → 0 ≤ (i : Int) + d →
        (i : Int) + d < (st.availableLayouts.length : Int) →
        (navigateLayout st d).currentLayout =
          st.availableLayouts.getD ((i : Int) + d).toNat "") := by
  refine ⟨?_, ?_, ?_⟩
  · intro h1
    rw [navigateLayout_currentLayout st i 1 hidx]
    have hw : wrapIndex st.availableLayouts.length ((i : Int) + 1) = 0 := by
      unfold wrapIndex
      rw [if_neg (show ¬ ((i : Int) + 1 < 0) by omega)]
      rw [if_pos (show (st.availableLayouts.length : Int) ≤ (i : Int) + 1 by
        omega)]
    rw [hw, Int.toNat_zero]
  · intro h0
    rw [navigateLayout_currentLayout st i (-1) hidx]
    have hw : wrapIndex st.availableLayouts.length ((i : Int) + (-1)) =
        (st.availableLayouts.length : Int) - 1 := by
      unfold wrapIndex
      rw [if_pos (show (i : Int) + (-1) < 0 by omega)]
      rw [if_neg (show ¬ ((st.availableLayouts.length : Int) ≤
        (st.availableLayouts.length : Int) - 1) by omega)]
    rw [hw]
    have ht : ((st.availableLayouts.length : Int) - 1).toNat =
        st.availableLayouts.length - 1 := by omega
    rw [ht]
  · intro d _hd hge hlt
    rw [navigateLayout_currentLayout st i d hidx]
    have hw : wrapIndex st.availableLayouts.length ((i : Int) + d) =
        (i : Int) + d := by
      unfold wrapIndex
      rw [if_neg (show ¬ ((i : Int) + d < 0) by omega)]
      rw [if_neg (show ¬ ((st.availableLayouts.length : Int) ≤ (i : Int) + d)
        by omega)]
    rw [hw]

/-- Witness for C7: on the sorted two-layout example, `+1` from `4room`
(the last) selects `3room`, `-1` from `3room` (the first) selects `4room`,
and `+1` from `3room` moves to the adjacent `4room`. -/
theorem navigateLayout_wraps_witness :
    (navigateLayout (dsAt "4room") 1).currentLayout = "3room" ∧
    (navigateLayout (dsAt "3room") (-1)).currentLayout = "4room" ∧
    (navigateLayout (dsAt "3room") 1).currentLayout = "4room" := by
  have h4 := navigateLayout_wraps (dsAt "4room") 1 rfl (by decide)
  have h3 := navigateLayout_wraps (dsAt "3room") 0 rfl (by decide)
  exact ⟨(h4.1 (by decide)).trans (by rfl),
    (h3.2.1 rfl).trans (by rfl),
    (h3.2.2 1 (Or.inl rfl) (by decide) (by decide)).trans (by rfl)⟩

/-- C9: the grid class rendered by `getSampleHTML` is a function of the
image count alone — counts 1 and 2 give the 2-column grid, count 3 the
3-column grid, and counts 4 and above the 4-column grid. -/
theorem gridClass_of_image_count (sample : LayoutSample) :
    ((sample.images.length = 1 ∨ sample.images.length = 2) →
        getSampleGridClass sample = "images-grid-2col") ∧
    (sample.images.length = 3 →
        getSampleGridClass sample = "images-grid-3col") ∧
    (4 ≤ sample.images.length →
        getSampleGridClass sample = "images-grid-4col") := by
  unfold getSampleGridClass gridClass
  refine ⟨?_, ?_, ?_⟩
  · rintro (h | h) <;> rw [if_pos (by omega)]
  · intro h
    rw [if_neg (by omega), if_pos h]
  · intro h
    rw [if_neg (by omega), if_neg (by omega)]

/-- Witness for C9: image counts 1, 2, 3, 4, 5 give grid classes
`2col, 2col, 3col, 4col, 4col`. -/
theorem gridClass_of_image_count_witness :
    getSampleGridClass ⟨"4room", ["a"]⟩ = "images-grid-2col" ∧
    getSampleGridClass ⟨"4room", ["a", "b"]⟩ = "images-grid-2col" ∧
    getSampleGridClass ⟨"4room", ["a", "b", "c"]⟩ = "images-grid-3col" ∧
    getSampleGridClass ⟨"4room", ["a", "b", "c", "d"]⟩ = "images-grid-4col" ∧
    getSampleGridClass ⟨"4room", ["a", "b", "c", "d", "e"]⟩ =
      "images-grid-4col" :=
  ⟨(gridClass_of_image_count _).1 (Or.inl rfl),
   (gridClass_of_image_count _).1 (Or.inr rfl),
   (gridClass_of_image_count _).2.1 rfl,
   (gridClass_of_image_count _).2.2 (by decide),
   (gridClass_of_image_count _).2.2 (by decide)⟩

end DatasetViewer

namespace CitationCopy

theorem buttonAt_single (t u : Nat) (ok : Bool) :
    buttonAt [⟨t, ok⟩] u =
      { copied := ok && decide (t ≤ u ∧ u < t + 2000)
        copyError := !ok && decide (t ≤ u ∧ u < t + 2000) } := by
  rcases Nat.lt_or_ge u t with h | hu1
  · have e1 : ¬ (t ≤ u) := by omega
    have e2 : ¬ (t + 2000 ≤ u) := by omega
    cases ok <;>
      simp [buttonAt, events, List.filter, sortEvents, insertEv, applyEv,
        e1, e2]
  · rcases Nat.lt_or_ge u (t + 2000) with h | hu2
    · have e2 : ¬ (t + 2000 ≤ u) := by omega
      cases ok <;>
        simp [buttonAt, events, List.filter, sortEvents, insertEv, applyEv,
          hu1, h, e2]
    · have e2 : ¬ (u < t + 2000) := by omega
      have e0 : t ≤ u := by omega
      cases ok <;>
        simp [buttonAt, events, List.filter, sortEvents, insertEv, applyEv,
          e0, e2, hu2]

theorem buttonAt_double (t1 t2 u : Nat) (ok : Bool) (h12 : t1 < t2)
    (hin : t2 < t1 + 2000) :
    buttonAt [⟨t1, ok⟩, ⟨t2, ok⟩] u =
      { copied := ok && decide (t1 ≤ u ∧ u < t1 + 2000)
        copyError := !ok && decide (t1 ≤ u ∧ u < t1 + 2000) } := by
  have c1 : t1 ≤ t2 := by omega
  have c2 : ¬ (t1 + 2000 ≤ t2) := by omega
  have c3 : t1 + 2000 ≤ t2 + 2000 := by omega
  rcases Nat.lt_or_ge u t1 with h | hu1
  · have e1 : ¬ (t1 ≤ u) := by omega
    have e2 : ¬ (t2 ≤ u) := by omega
    have e3 : ¬ (t1 + 2000 ≤ u) := by omega
    have e4 : ¬ (t2 + 2000 ≤ u) := by omega
    cases ok <;>
      simp [buttonAt, events, List.filter, sortEvents, insertEv, applyEv,
        e1, e2, e3, e4]
  · rcases Nat.lt_or_ge u t2 with h | hu2
    · have e2 : ¬ (t2 ≤ u) := by omega
      have e3 : ¬ (t1 + 2000 ≤ u) := by omega
      have e4 : ¬ (t2 + 2000 ≤ u) := by omega
      have e5 : u < t1 + 2000 := by omega
      cases ok <;>
        simp [buttonAt, events, List.filter, sortEvents, insertEv, applyEv,
          hu1, e2, e3, e4, e5]
    · rcases Nat.lt_or_ge u (t1 + 2000) with h | hu3
      · have e3 : ¬ (t1 + 2000 ≤ u) := by omega
        have e4 : ¬ (t2 + 2000 ≤ u) := by omega
        cases ok <;>
          simp [buttonAt, events, List.filter, sortEvents, insertEv, applyEv,
            hu1, hu2, e3, e4, h, c1]
      · rcases Nat.lt_or_ge u (t2 + 2000) with h | hu4
        · have e4 : ¬ (t2 + 2000 ≤ u) := by omega
          have e5 : ¬ (u < t1 + 2000) := by omega
          cases ok <;>
            simp [buttonAt, events, List.filter, sortEvents, insertEv,
              applyEv, hu1, hu2, hu3, e4, e5, c1, c2]
        · have e5 : ¬ (u < t1 + 2000) := by omega
          cases ok <;>
            simp [buttonAt, events, List.filter, sortEvents, insertEv,
              applyEv, hu1, hu2, hu3, hu4, e5, c1, c2, c3]

/-- C3 (amended): after a single citation-copy click the transient
`copied` (on success) / `copy-error` (on failure) class lasts exactly
2000 ms and then reverts; but a second click while the transient state is
active does **not** restart the timer: the first click's pending
`setTimeout` is never cancelled, so the class is removed 2000 ms after the
*first* click, not the second. -/
theorem citationCopy_transient_spec (t1 t2 u : Nat) (h12 : t1 < t2)
    (hin : t2 < t1 + 2000) :
    ((buttonAt [⟨t1, true⟩] u).copied = decide (t1 ≤ u ∧ u < t1 + 2000)) ∧
    ((buttonAt [⟨t1, true⟩, ⟨t2, true⟩] u).copied =
      decide (t1 ≤ u ∧ u < t1 + 2000)) ∧
    ((buttonAt [⟨t1, false⟩] u).copyError =
      decide (t1 ≤ u ∧ u < t1 + 2000)) ∧
    ((buttonAt [⟨t1, false⟩, ⟨t2, false⟩] u).copyError =
      decide (t1 ≤ u ∧ u < t1 + 2000)) := by
  refine ⟨?_, ?_, ?_, ?_⟩ <;>
    simp [buttonAt_single, buttonAt_double t1 t2 u _ h12 hin]

/-- C3 counterexample: clicks at 0 ms and 1000 ms; at 2500 ms — still
within 2000 ms of the second click, so the claim says the `copied` state
is active — the class is already gone, because the first click's timeout
removed it at 2000 ms. -/
theorem citationCopy_no_restart_cex :
    (buttonAt [⟨0, true⟩, ⟨1000, true⟩] 2500).copied = false ∧
    1000 ≤ 2500 ∧ 2500 < 1000 + 2000 := by
  refine ⟨by decide, by decide, by decide⟩

/-- Witness for C3 (amended): with clicks at 0 and 1000 ms, the `copied`
class is on at 1500 ms but off at 2500 ms (2000 ms after the first click),
and a single failing click at 0 ms shows `copy-error` at 1999 ms but not
at 2000 ms. -/
theorem citationCopy_transient_spec_witness :
    (buttonAt [⟨0, true⟩, ⟨1000, true⟩] 1500).copied = true ∧
    (buttonAt [⟨0, true⟩, ⟨1000, true⟩] 2500).copied = false ∧
    (buttonAt [⟨0, false⟩] 1999).copyError = true ∧
    (buttonAt [⟨0, false⟩] 2000).copyError = false := by
  have hA := citationCopy_transient_spec 0 1000 1500 (by decide) (by decide)
  have hB := citationCopy_transient_spec 0 1000 2500 (by decide) (by decide)
  have hC := citationCopy_transient_spec 0 1000 1999 (by decide) (by decide)
  have hD := citationCopy_transient_spec 0 1000 2000 (by decide) (by decide)
  exact ⟨(hA.2.1).trans (by decide), (hB.2.1).trans (by decide),
    (hC.2.2.1).trans (by decide), (hD.2.2.1).trans (by decide)⟩

end CitationCopy
